import Mathlib

/-!
Verification development for the SMS-bot server of this repository.

Embedded sources:
* `server.js` — the current server: webhook pipeline with an explicit
  `BEGIN`/`COMMIT`/`ROLLBACK` transaction and the LLM orchestrator
  (`runOrchestratorLLM`), plus `loadConfig`, `isNightTime`,
  `parseSmsProviderPayload`.
* `src/unnamed/part_000` — an earlier revision of `server.js` whose webhook
  handler contains the policy decision (complaint mode, night deferral,
  normal LLM reply); embedded here as `handleWebhook0`.
* `src/unnamed/part_001` (`llm_spec.js`) — the prompt builder; only the
  shape of the history it receives matters for the claims.

Modelling conventions:
* JavaScript values returned by `JSON.parse` are modelled by the inductive
  type `Json`; JS truthiness and `typeof x === "object"` are modelled
  explicitly.  `undefined` (absent property) is modelled by `Option.none`;
  every use site coerces it through `||` or `!!`, for which `undefined` and
  `null` behave identically, so `jsGet` collapses `undefined` to `null`.
* The PostgreSQL tables touched by the webhook are modelled by `DB`:
  a list of `messages` rows, a list of `followup_queue` rows, and the
  id sequence counter.  `INSERT ... RETURNING id` assigns `nextMsgId`.
  SQL `ORDER BY id DESC` is modelled by the executable insertion sort
  `sortByIdDesc`.
* The external world (OpenAI transport outcome, each query's
  success/failure) is passed in as explicit parameters, so that the
  handlers stay pure and executable.
* Timestamps are modelled by `DateTime`, carrying exactly the observation
  the code makes of a JS `Date`: its hour in the Asia/Seoul timezone
  (`toLocaleString("en-US", {timeZone:"Asia/Seoul"})` followed by
  `getHours()` is an external conversion; its result is the field).
-/

namespace SmsBot

/-- A JavaScript value as produced by `JSON.parse` (numbers restricted to
integers, which suffices for every value the code inspects). -/
inductive Json where
  | null : Json
  | bool : Bool → Json
  | num : Int → Json
  | str : String → Json
  | arr : List Json → Json
  | obj : List (String × Json) → Json

/-- JavaScript truthiness of a value (`if (x)`, `!!x`, `x || y`). -/
def Json.truthy : Json → Bool
  | .null => false
  | .bool b => b
  | .num n => n != 0
  | .str s => s != ""
  | .arr _ => true
  | .obj _ => true

/-- Whether `typeof x === "object"` holds in JavaScript: `null`, arrays and
plain objects all have `typeof` `"object"`. -/
def Json.typeofIsObject : Json → Bool
  | .null => true
  | .arr _ => true
  | .obj _ => true
  | _ => false

/-- Property lookup on a parsed JSON value: `none` models `undefined`.
`JSON.parse` keeps the last occurrence of a duplicated key, hence the
reversed search. -/
def Json.getField : Json → String → Option Json
  | .obj kvs, k => (kvs.reverse.find? (fun p => p.1 == k)).map (·.2)
  | _, _ => none

/-- Property access collapsed to a `Json` value: an absent property
(`undefined`) behaves exactly like `null` at every use site in this code
(all of them coerce through `||` or `!!`). -/
def jsGet (j : Json) (k : String) : Json :=
  (j.getField k).getD .null

/-- JavaScript `a || b` on values. -/
def jsOr (a b : Json) : Json :=
  if a.truthy then a else b

/-- A JS `Date`, observed only through its Asia/Seoul hour (0–23). -/
structure DateTime where
  kstHour : Nat
deriving DecidableEq

/-- Embeds `isNightTime` from server.js: the Asia/Seoul hour of the given
date satisfies `hour >= 3 && hour < 10`. -/
def isNightTime (d : DateTime) : Bool :=
  decide (3 ≤ d.kstHour) && decide (d.kstHour < 10)

/-! ## Orchestrator (`runOrchestratorLLM`, server.js lines 196–255) -/

/-- The outcome of the OpenAI call inside `runOrchestratorLLM`:
either the transport throws, or it yields content whose `JSON.parse`
result is `some j` (success) or `none` (parse error). -/
inductive ModelOutcome where
  | transportError : ModelOutcome
  | content : Option Json → ModelOutcome

/-- The normalized result shape produced by `runOrchestratorLLM`.  The four
value fields keep whatever (possibly non-string) JSON value survived the
`||` coercion, exactly as in the JS object literal. -/
structure OrchResult where
  reply_text : Json
  intent : Json
  flow_type : Json
  slots : Json
  need_followup : Bool
  end_flow : Bool

/-- The fixed "system still warming up" reply used by both fallback
branches of `runOrchestratorLLM`. -/
def fallbackReplyText : String :=
  "문의 감사합니다! 현재 자동응답 시스템 세팅 중이라, 조금 뒤에 다시 안내드리겠습니다 :)"

/-- The canonical fallback result of `runOrchestratorLLM`. -/
def fallbackOrchResult : OrchResult :=
  { reply_text := .str fallbackReplyText
    intent := .str "GENERIC"
    flow_type := .null
    slots := .obj []
    need_followup := true
    end_flow := false }

/-- Embeds `runOrchestratorLLM` (server.js lines 196–255).  A transport
error is caught and yields the fallback; an unparseable body
(`JSON.parse` throws, `parsed = null`) or a parsed value that is falsy or
not of `typeof "object"` yields the fallback; otherwise each field is
coerced with `||` / `!!`.  The function is total: no failure mode
propagates to the caller. -/
def runOrchestratorLLM : ModelOutcome → OrchResult
  | .transportError => fallbackOrchResult
  | .content none => fallbackOrchResult
  | .content (some parsed) =>
    if !parsed.truthy || !parsed.typeofIsObject then
      fallbackOrchResult
    else
      { reply_text := jsOr (jsGet parsed "reply_text") (.str "")
        intent := jsOr (jsGet parsed "intent") (.str "GENERIC")
        flow_type := jsOr (jsGet parsed "flow_type") .null
        slots := jsOr (jsGet parsed "slots") (.obj [])
        need_followup := (jsGet parsed "need_followup").truthy
        end_flow := (jsGet parsed "end_flow").truthy }

/-! ## Config cache (`loadConfig`, server.js lines 44–110) -/

/-- A row of the `intents` table as selected by `loadConfig`. -/
structure IntentRow where
  name : String
  description : String
  is_action : Bool
  is_complaint_like : Bool
deriving DecidableEq

/-- A row of the `bot_settings` table. -/
structure BotSettingRow where
  key : String
  value : String
deriving DecidableEq

/-- A row of the `intent_templates` table as selected by `loadConfig`
(already filtered to `is_active = TRUE` and ordered by
`intent_name, sort_order, id` — the ORDER BY is part of the query, so the
row list is taken as given in that order). -/
structure TemplateRow where
  intent_name : String
  sub_intent : Option String
  display_label : Option String
  message : String
deriving DecidableEq

/-- One entry of `templatesByIntent`, as pushed by `loadConfig`. -/
structure TemplateEntry where
  sub_intent : Option String
  label : Option String
  message : String
deriving DecidableEq

/-- The `cachedConfig` snapshot of server.js.  `templates` models the
`templatesByIntent` object: keys in first-insertion order, each holding
its entries in row order. -/
structure ConfigSnapshot where
  intents : List IntentRow
  actionIntentNames : List String
  templates : List (String × List TemplateEntry)
  lastLoadedAt : Option DateTime
deriving DecidableEq

/-- One step of building `templatesByIntent`: push the row's entry onto the
bucket for its intent name, creating the bucket on first sight. -/
def addTemplate (acc : List (String × List TemplateEntry))
    (r : TemplateRow) : List (String × List TemplateEntry) :=
  let entry : TemplateEntry :=
    { sub_intent := r.sub_intent, label := r.display_label, message := r.message }
  if acc.any (fun p => p.1 == r.intent_name) then
    acc.map (fun p => if p.1 == r.intent_name then (p.1, p.2 ++ [entry]) else p)
  else
    acc ++ [(r.intent_name, [entry])]

/-- The `templatesByIntent` grouping loop of `loadConfig`. -/
def buildTemplates (rows : List TemplateRow) : List (String × List TemplateEntry) :=
  rows.foldl addTemplate []

/-- Embeds `loadConfig` (server.js).  Each `Except` argument is the outcome
of one of its three queries, in program order; a failing query throws, so
the assignment to `cachedConfig` at the end is never reached and the
previous snapshot `prev` stays in place (the `Bool` reports success).
The `bot_settings` rows are read into a local object that this revision
never uses, but the query still runs and its failure still aborts the
load. -/
def loadConfig (prev : ConfigSnapshot) (now : DateTime)
    (intentsQ : Except String (List IntentRow))
    (settingsQ : Except String (List BotSettingRow))
    (tmplQ : Except String (List TemplateRow)) : ConfigSnapshot × Bool :=
  match intentsQ with
  | .error _ => (prev, false)
  | .ok intents =>
    match settingsQ with
    | .error _ => (prev, false)
    | .ok _settingsRows =>
      match tmplQ with
      | .error _ => (prev, false)
      | .ok tmplRows =>
        ({ intents := intents
           actionIntentNames := (intents.filter (·.is_action)).map (·.name)
           templates := buildTemplates tmplRows
           lastLoadedAt := some now }, true)

/-! ## Conversation store: the tables touched by the webhook -/

/-- A row of the `messages` table.  Columns that a given INSERT does not
supply stay `none` (SQL `NULL`, or a column default such as `created_at`'s
`NOW()`).  `intent`, `slots` and `flow_type` hold `Json` because the
current server inserts whatever value survived the orchestrator's `||`
coercion; `confidence` is used only by the earlier revision. -/
structure MessageRow where
  id : Nat
  direction : String
  phone_number : String
  text : String
  created_at : Option DateTime
  intent : Option Json
  confidence : Option Rat
  guest_state : Option String
  handled_by : Option String
  need_followup : Option Bool
  resolved : Option Bool
  reply_to_id : Option Nat
  slots : Option Json
  flow_type : Option Json

/-- A row of the `followup_queue` table (only the columns the webhook
writes; `reason` is nullable in the parameterized INSERT). -/
structure FollowupRow where
  message_id : Nat
  status : String
  reason : Option String

/-- The persistent state the webhook touches: the `messages` and
`followup_queue` tables plus the id sequence for `messages`. -/
structure DB where
  messages : List MessageRow
  followups : List FollowupRow
  nextMsgId : Nat

/-- Well-formedness of a database state: every stored id was assigned by
the sequence, hence is below the next value it will hand out. -/
def WFDb (db : DB) : Prop :=
  (∀ m ∈ db.messages, m.id < db.nextMsgId) ∧
  (∀ fq ∈ db.followups, fq.message_id < db.nextMsgId)

/-- INSERT INTO messages … RETURNING id: the new row receives the sequence
value `db.nextMsgId` (the caller bakes it into the row). -/
def insertMessage (db : DB) (m : MessageRow) : DB :=
  { messages := db.messages ++ [m]
    followups := db.followups
    nextMsgId := db.nextMsgId + 1 }

/-- INSERT INTO followup_queue (message_id, status, reason). -/
def insertFollowup (db : DB) (fq : FollowupRow) : DB :=
  { db with followups := db.followups ++ [fq] }

/-- Insertion step of the `ORDER BY id DESC` model. -/
def insertByIdDesc (m : MessageRow) : List MessageRow → List MessageRow
  | [] => [m]
  | x :: xs => if x.id ≤ m.id then m :: x :: xs else x :: insertByIdDesc m xs

/-- Executable model of SQL `ORDER BY id DESC` over the selected rows. -/
def sortByIdDesc : List MessageRow → List MessageRow
  | [] => []
  | x :: xs => insertByIdDesc x (sortByIdDesc xs)

/-- The history query of the webhook (server.js lines 283–292):
`SELECT … FROM messages WHERE phone_number = $1 ORDER BY id DESC LIMIT 10`. -/
def queryHistory (msgs : List MessageRow) (phone : String) : List MessageRow :=
  (sortByIdDesc (msgs.filter (fun m => m.phone_number == phone))).take 10

/-! ## Payload parsing (`parseSmsProviderPayload`, server.js lines 173–179) -/

/-- The fields of the webhook request body that `parseSmsProviderPayload`
reads; `none` models an absent property. -/
structure Payload where
  bodyFrom : Option String
  bodyPhone : Option String
  bodySender : Option String
  bodyText : Option String
  bodyMessage : Option String
  bodyReceivedAt : Option DateTime

/-- The parsed payload.  `fromVal` keeps the JS value of
`body.from || body.phone || body.sender`, which is `undefined` (`none`)
when all three are absent. -/
structure ParsedPayload where
  fromVal : Option String
  textVal : String
  receivedAt : DateTime

/-- JavaScript `a || b` for optional strings ("" is falsy). -/
def jsOrStr : Option String → Option String → Option String
  | some s, b => if s == "" then b else some s
  | none, b => b

/-- Embeds `parseSmsProviderPayload`: `from = body.from || body.phone ||
body.sender`, `text = body.text || body.message || ""`, and `receivedAt`
defaults to the current time when absent from the payload. -/
def parseSmsProviderPayload (body : Payload) (now : DateTime) : ParsedPayload :=
  { fromVal := jsOrStr body.bodyFrom (jsOrStr body.bodyPhone body.bodySender)
    textVal := (jsOrStr body.bodyText body.bodyMessage).getD ""
    receivedAt := body.bodyReceivedAt.getD now }

/-! ## The webhook pipeline of server.js (lines 258–394) -/

structure HttpResponse where
  status : Nat
  body : Json

/-- The 400 response of the validation guard. -/
def err400 : HttpResponse :=
  ⟨400, .obj [("error", .str "from, text is required")]⟩

/-- The 500 response of the catch-all error handler. -/
def err500 : HttpResponse :=
  ⟨500, .obj [("error", .str "internal_server_error")]⟩

/-- Which of the handler's steps fail on this request (a `true` flag makes
the corresponding `client.query` / `BEGIN` / `COMMIT` throw). -/
structure Failures where
  beginFail : Bool
  insertInFail : Bool
  historyFail : Bool
  knowledgeFail : Bool
  insertOutFail : Bool
  followupFail : Bool
  updateInFail : Bool
  commitFail : Bool

/-- The result of one webhook request: the database after the request, the
HTTP response, and — when the pipeline reached the orchestrator call — the
`(text, history)` pair passed to it (instrumentation of the call site). -/
structure WebhookResult where
  db : DB
  resp : HttpResponse
  llmCall : Option (String × List (String × String))

/-- The IN row inserted by step 1 of the webhook. -/
def mkInRow (id : Nat) (phone text : String) (receivedAt : DateTime) : MessageRow :=
  { id := id, direction := "IN", phone_number := phone, text := text
    created_at := some receivedAt, intent := none, confidence := none
    guest_state := none, handled_by := none, need_followup := none
    resolved := none, reply_to_id := none, slots := none, flow_type := none }

/-- JavaScript `x || null` rendered as a nullable column value. -/
def jsOrNull (j : Json) : Option Json :=
  if j.truthy then some j else none

/-- JavaScript `s || null` for a string-valued variable. -/
def strOrNull (s : String) : Option String :=
  if s == "" then none else some s

/-- The length of `Object.keys(x)` for the values that can reach the
`slots` parameter: own enumerable keys of an object (distinct keys — a
parsed object keeps one property per name), indices of an array or a
string, nothing for primitives. -/
def jsKeyCount : Json → Nat
  | .obj kvs => ((kvs.map Prod.fst).dedup).length
  | .arr xs => xs.length
  | .str s => s.length
  | _ => 0

/-- The OUT row of server.js step 5 (only reached when the reply text is a
string that is non-empty after trimming). -/
def mkOutRow (id : Nat) (phone replyText : String) (orch : OrchResult)
    (guestState : String) (incomingId : Nat) : MessageRow :=
  { id := id, direction := "OUT", phone_number := phone, text := replyText
    created_at := none
    intent := jsOrNull orch.intent
    confidence := none
    guest_state := strOrNull guestState
    handled_by := some "LLM_ORCHESTRATOR"
    need_followup := some orch.need_followup
    resolved := some (!orch.need_followup)
    reply_to_id := some incomingId
    slots := if 0 < jsKeyCount (jsOr orch.slots (.obj [])) then some orch.slots else none
    flow_type := jsOrNull orch.flow_type }

/-- The UPDATE of step 7 applied to one row: only the row whose id is
`incomingId` changes. -/
def applyInUpdate (incomingId : Nat) (orch : OrchResult) (guestState : String)
    (m : MessageRow) : MessageRow :=
  if m.id == incomingId then
    { m with
      intent := jsOrNull orch.intent
      guest_state := strOrNull guestState
      need_followup := some orch.need_followup
      resolved := some (!orch.need_followup) }
  else m

/-- Whitespace as stripped by JavaScript's `String.prototype.trim`
(restricted to the ASCII whitespace characters, which covers every string
this development evaluates). -/
def jsWhitespaceChar (c : Char) : Bool :=
  c == ' ' || c == '\t' || c == '\n' || c == '\r' || c == '\x0b' || c == '\x0c'

/-- Executable model of JavaScript `s.trim()`: strip leading and trailing
whitespace. -/
def jsTrim (s : String) : String :=
  ⟨((s.data.dropWhile jsWhitespaceChar).reverse.dropWhile jsWhitespaceChar).reverse⟩

/-- What `if (reply_text && reply_text.trim() !== "")` does to a JS value:
skip the OUT insert on a falsy value, insert when a string survives
trimming, and throw a `TypeError` (caught by the surrounding handler) when
`.trim()` is called on a truthy non-string. -/
inductive OutAction where
  | skip : OutAction
  | throwErr : OutAction
  | insertText : String → OutAction

/-- Evaluates the OUT-insert guard of server.js line 318 (for a string,
truthiness is non-emptiness, so the insert happens exactly when the string
survives trimming; a truthy non-string reaches the `.trim()` call and
throws). -/
def outAction : Json → OutAction
  | .str s => if s == "" then .skip else if jsTrim s == "" then .skip else .insertText s
  | j => if j.truthy then .throwErr else .skip

/-- The 200 response body of the webhook (server.js lines 379–386). -/
def okResponse (incomingId : Nat) (outgoingId : Option Nat)
    (orch : OrchResult) : HttpResponse :=
  ⟨200, .obj
    [("ok", .bool true),
     ("incoming_id", .num incomingId),
     ("outgoing_id", match outgoingId with | some i => .num i | none => .null),
     ("intent", orch.intent),
     ("flow_type", orch.flow_type),
     ("end_flow", .bool orch.end_flow)]⟩

/-- Steps 6–7 and COMMIT of the webhook (the tail of the handler after the
OUT-insert decision).  `db0` is the pre-transaction state restored by
ROLLBACK on any failure; `dbCur` is the in-transaction state so far. -/
def finishWebhook (db0 dbCur : DB) (incomingId : Nat) (outgoingId : Option Nat)
    (guestState : String) (orch : OrchResult) (f : Failures)
    (call : Option (String × List (String × String))) : WebhookResult :=
  if orch.need_followup && f.followupFail then ⟨db0, err500, call⟩
  else
    let db3 :=
      if orch.need_followup then
        insertFollowup dbCur ⟨incomingId, "PENDING", some "LLM_FLAGGED"⟩
      else dbCur
    if f.updateInFail then ⟨db0, err500, call⟩
    else
      let db4 := { db3 with
        messages := db3.messages.map (applyInUpdate incomingId orch guestState) }
      if f.commitFail then ⟨db0, err500, call⟩
      else ⟨db4, okResponse incomingId outgoingId orch, call⟩

/-- Local name of the handler's `from` variable (with `undefined` read as
`""`, exactly how the validation guard treats it). -/
def webFrom (body : Payload) (now : DateTime) : String :=
  (parseSmsProviderPayload body now).fromVal.getD ""

/-- Local name of the handler's `text` variable. -/
def webText (body : Payload) (now : DateTime) : String :=
  (parseSmsProviderPayload body now).textVal

/-- The IN row the handler inserts in step 1 (`incomingId` is the id the
sequence returns, `db.nextMsgId`). -/
def webhookInRow (db : DB) (body : Payload) (now : DateTime) : MessageRow :=
  mkInRow db.nextMsgId (webFrom body now) (webText body now)
    (parseSmsProviderPayload body now).receivedAt

/-- The history the handler builds in step 2: the history query evaluated
on the in-transaction table (IN row already inserted), rows reversed into
chronological order and projected to direction/text. -/
def webhookHistory (db : DB) (body : Payload) (now : DateTime) :
    List (String × String) :=
  (queryHistory (db.messages ++ [webhookInRow db body now]) (webFrom body now)).reverse.map
    (fun r => (r.direction, r.text))

/-- Embeds the `/sms/webhook` handler of server.js (lines 258–394).
Validation rejects with 400 before `BEGIN`; afterwards every step runs in
one transaction, any thrown step lands in the catch block which issues
ROLLBACK (restoring `db`) and answers 500.  `mo` is the outcome of the
OpenAI call, `f` says which steps fail.  The handler's local values
(`from`, `text`, the IN row, the history passed to the orchestrator) are
factored into the named definitions above. -/
def handleWebhook (db : DB) (body : Payload) (now : DateTime)
    (mo : ModelOutcome) (f : Failures) : WebhookResult :=
  if webFrom body now == "" || webText body now == "" then ⟨db, err400, none⟩
  else if f.beginFail then ⟨db, err500, none⟩
  else if f.insertInFail then ⟨db, err500, none⟩
  else if f.historyFail then ⟨db, err500, none⟩
  else if f.knowledgeFail then ⟨db, err500, none⟩
  else
    match outAction (runOrchestratorLLM mo).reply_text with
    | .throwErr => ⟨db, err500, some (webText body now, webhookHistory db body now)⟩
    | .skip =>
      finishWebhook db (insertMessage db (webhookInRow db body now))
        db.nextMsgId none "UNKNOWN" (runOrchestratorLLM mo) f
        (some (webText body now, webhookHistory db body now))
    | .insertText s =>
      if f.insertOutFail then
        ⟨db, err500, some (webText body now, webhookHistory db body now)⟩
      else
        finishWebhook db
          (insertMessage (insertMessage db (webhookInRow db body now))
            (mkOutRow (db.nextMsgId + 1) (webFrom body now) s
              (runOrchestratorLLM mo) "UNKNOWN" db.nextMsgId))
          db.nextMsgId (some (db.nextMsgId + 1)) "UNKNOWN"
          (runOrchestratorLLM mo) f
          (some (webText body now, webhookHistory db body now))

/-! ## The earlier revision's webhook (src/unnamed/part_000, lines 309–443)

This revision classifies with `classifyIntent` and then applies the policy
decision: complaint mode, night deferral, or a normal LLM-generated reply.
It runs its queries without an explicit transaction. -/

/-- The normalized result of `classifyIntent` (part_000 lines 105–185);
that function catches every parse/transport failure itself and always
returns a value of this shape. -/
structure IntentResult where
  intent : String
  confidence : Rat
  is_complaint : Bool

/-- Embeds `isComplaint` (part_000 line 188): `intentResult.is_complaint
=== true`. -/
def isComplaint (intentResult : IntentResult) : Bool :=
  intentResult.is_complaint == true

/-- The `cachedConfig` snapshot of the earlier revision: action-intent
names plus the two configured reply templates. -/
structure CachedConfig0 where
  actionIntentNames : List String
  nightDeferReply : String
  complaintReply : String

/-- Embeds `buildNightDeferReply` (part_000 line 301, the later of the two
declarations of that name, which wins by JS hoisting): returns the
configured night-deferral template, ignoring its arguments. -/
def buildNightDeferReply (cfg : CachedConfig0) (_intentResult : IntentResult)
    (_guestState : String) : String :=
  cfg.nightDeferReply

/-- Embeds `buildComplaintAutoReply` (part_000 line 305, the later
declaration): returns the configured complaint template. -/
def buildComplaintAutoReply (cfg : CachedConfig0) : String :=
  cfg.complaintReply

/-- The UPDATE of part_000 step 8 applied to one row. -/
def applyInUpdate0 (incomingId : Nat) (cls : IntentResult) (guestState : String)
    (needFollowup resolved : Bool) (m : MessageRow) : MessageRow :=
  if m.id == incomingId then
    { m with
      intent := some (.str cls.intent)
      confidence := some cls.confidence
      guest_state := some guestState
      need_followup := some needFollowup
      resolved := some resolved }
  else m

/-- The OUT row of part_000 step 6 (inserted unconditionally). -/
def mkOutRow0 (id : Nat) (phone replyText : String) (cls : IntentResult)
    (guestState handledBy : String) (needFollowup resolved : Bool)
    (incomingId : Nat) : MessageRow :=
  { id := id, direction := "OUT", phone_number := phone, text := replyText
    created_at := none
    intent := some (.str cls.intent)
    confidence := some cls.confidence
    guest_state := some guestState
    handled_by := some handledBy
    need_followup := some needFollowup
    resolved := some resolved
    reply_to_id := some incomingId
    slots := none, flow_type := none }

/-- The 200 response body of the earlier revision (part_000 lines 428–436). -/
def okResponse0 (incomingId outgoingId : Nat) (cls : IntentResult)
    (guestState : String) (night needFollowup : Bool) : HttpResponse :=
  ⟨200, .obj
    [("ok", .bool true),
     ("incoming_id", .num incomingId),
     ("outgoing_id", .num outgoingId),
     ("intent", .str cls.intent),
     ("guest_state", .str guestState),
     ("night", .bool night),
     ("need_followup", .bool needFollowup)]⟩

/-- Step 4 of the earlier revision's handler: the policy decision.  The
local variables `replyText`, `needFollowup`, `followupReason` start as
`("", false, null)` and are set by exactly one of the three branches —
complaint first, then night deferral (`shouldDefer = night &&
actionIntents.includes(intent)`), else the normal LLM reply. -/
def webhook0Decision (cfg : CachedConfig0) (body : Payload) (now : DateTime)
    (cls : IntentResult) (llmReply : String) : String × Bool × Option String :=
  if isComplaint cls then
    (buildComplaintAutoReply cfg, true, some "COMPLAINT")
  else if isNightTime (parseSmsProviderPayload body now).receivedAt &&
      cfg.actionIntentNames.contains cls.intent then
    (buildNightDeferReply cfg cls "UNKNOWN", true, some "NIGHT_ACTION")
  else
    (llmReply, false, none)

/-- The OUT row of part_000 step 6, built from the policy decision
(`handledBy` is `AUTO_PENDING` when follow-up is needed, `resolved` the
negation of `needFollowup`). -/
def webhook0OutRow (cfg : CachedConfig0) (db : DB) (body : Payload)
    (now : DateTime) (cls : IntentResult) (llmReply : String) : MessageRow :=
  mkOutRow0 (db.nextMsgId + 1) (webFrom body now)
    (webhook0Decision cfg body now cls llmReply).1 cls "UNKNOWN"
    (if (webhook0Decision cfg body now cls llmReply).2.1 then "AUTO_PENDING" else "AUTO")
    (webhook0Decision cfg body now cls llmReply).2.1
    (!(webhook0Decision cfg body now cls llmReply).2.1) db.nextMsgId

/-- The database state after part_000 steps 1 and 5–8: IN row inserted,
OUT row inserted, follow-up enqueued when needed, IN row updated with the
classification outcome. -/
def webhook0Db (cfg : CachedConfig0) (db : DB) (body : Payload)
    (now : DateTime) (cls : IntentResult) (llmReply : String) : DB :=
  let db2 := insertMessage (insertMessage db (webhookInRow db body now))
    (webhook0OutRow cfg db body now cls llmReply)
  let db3 :=
    if (webhook0Decision cfg body now cls llmReply).2.1 then
      insertFollowup db2
        ⟨db.nextMsgId, "PENDING", (webhook0Decision cfg body now cls llmReply).2.2⟩
    else db2
  { db3 with
    messages := db3.messages.map
      (applyInUpdate0 db.nextMsgId cls "UNKNOWN"
        (webhook0Decision cfg body now cls llmReply).2.1
        (!(webhook0Decision cfg body now cls llmReply).2.1)) }

/-- Embeds the `/sms/webhook` handler of the earlier revision (part_000
lines 309–443) on its success path (no query failure injected — this
revision has no transaction, so failure atomicity is a property of the
current server only).  `cls` is the result of `classifyIntent` and
`llmReply` the reply produced by `generateReplyWithLLM` on the normal
path; both functions absorb their own failures and always return. -/
def handleWebhook0 (cfg : CachedConfig0) (db : DB) (body : Payload)
    (now : DateTime) (cls : IntentResult) (llmReply : String) : DB × HttpResponse :=
  if webFrom body now == "" || webText body now == "" then (db, err400)
  else
    (webhook0Db cfg db body now cls llmReply,
     okResponse0 db.nextMsgId (db.nextMsgId + 1) cls "UNKNOWN"
       (isNightTime (parseSmsProviderPayload body now).receivedAt)
       (webhook0Decision cfg body now cls llmReply).2.1)

/-! ## Helper lemmas -/

/-- Appending a row whose id dominates every id of the list sorts to the
front: the SQL `ORDER BY id DESC` puts the freshest row first. -/
theorem sortByIdDesc_append_max (l : List MessageRow) (m : MessageRow)
    (h : ∀ x ∈ l, x.id < m.id) :
    sortByIdDesc (l ++ [m]) = m :: sortByIdDesc l := by
  induction l with
  | nil => rfl
  | cons x l ih =>
    show insertByIdDesc x (sortByIdDesc (l ++ [m]))
      = m :: insertByIdDesc x (sortByIdDesc l)
    rw [ih (fun y hy => h y (List.mem_cons_of_mem x hy))]
    have hx : x.id < m.id := h x (List.mem_cons_self x l)
    simp only [insertByIdDesc]
    rw [if_neg (by omega)]

/-- The step-7 UPDATE leaves rows with a different id untouched. -/
theorem map_applyInUpdate_of_ne (i : Nat) (orch : OrchResult) (gs : String)
    (l : List MessageRow) (h : ∀ m ∈ l, m.id ≠ i) :
    l.map (applyInUpdate i orch gs) = l := by
  induction l with
  | nil => rfl
  | cons x l ih =>
    have hx : x.id ≠ i := h x (List.mem_cons_self x l)
    simp only [List.map_cons, ih (fun m hm => h m (List.mem_cons_of_mem _ hm))]
    simp [applyInUpdate, hx]

/-- The earlier revision's step-8 UPDATE leaves rows with a different id
untouched. -/
theorem map_applyInUpdate0_of_ne (i : Nat) (cls : IntentResult) (gs : String)
    (nf rs : Bool) (l : List MessageRow) (h : ∀ m ∈ l, m.id ≠ i) :
    l.map (applyInUpdate0 i cls gs nf rs) = l := by
  induction l with
  | nil => rfl
  | cons x l ih =>
    have hx : x.id ≠ i := h x (List.mem_cons_self x l)
    simp only [List.map_cons, ih (fun m hm => h m (List.mem_cons_of_mem _ hm))]
    simp [applyInUpdate0, hx]

/-- The database committed by a fully successful webhook request:
`outPart` is the OUT-row part of the insert (empty or a singleton). -/
def webhookSuccessDb (db : DB) (body : Payload) (now : DateTime)
    (mo : ModelOutcome) (outPart : List MessageRow) : DB :=
  { messages := (db.messages ++ webhookInRow db body now :: outPart).map
      (applyInUpdate db.nextMsgId (runOrchestratorLLM mo) "UNKNOWN")
    followups := db.followups ++
      (if (runOrchestratorLLM mo).need_followup then
        [⟨db.nextMsgId, "PENDING", some "LLM_FLAGGED"⟩] else [])
    nextMsgId := db.nextMsgId + 1 + outPart.length }

/-- The OUT part of a successful request's inserts: a singleton when the
reply text is a string surviving trimming, empty otherwise. -/
def webhookOutPart (db : DB) (body : Payload) (now : DateTime)
    (mo : ModelOutcome) : List MessageRow :=
  match outAction (runOrchestratorLLM mo).reply_text with
  | .insertText s => [mkOutRow (db.nextMsgId + 1) (webFrom body now) s
      (runOrchestratorLLM mo) "UNKNOWN" db.nextMsgId]
  | _ => []

/-- Every run of the webhook lands in exactly one of three buckets: the
400 rejection (database untouched), a rolled-back 500 (database untouched,
the orchestrator call recorded only if the failure happened after it), or
a committed success whose full state is spelled out. -/
theorem webhook_run (db : DB) (body : Payload) (now : DateTime)
    (mo : ModelOutcome) (f : Failures) :
    handleWebhook db body now mo f = ⟨db, err400, none⟩ ∨
    ((handleWebhook db body now mo f).db = db ∧
     (handleWebhook db body now mo f).resp = err500 ∧
     ((handleWebhook db body now mo f).llmCall = none ∨
      (handleWebhook db body now mo f).llmCall =
        some (webText body now, webhookHistory db body now))) ∨
    (outAction (runOrchestratorLLM mo).reply_text ≠ .throwErr ∧
     handleWebhook db body now mo f =
       ⟨webhookSuccessDb db body now mo (webhookOutPart db body now mo),
        okResponse db.nextMsgId
          ((webhookOutPart db body now mo).head?.map (·.id))
          (runOrchestratorLLM mo),
        some (webText body now, webhookHistory db body now)⟩) := by
  unfold handleWebhook finishWebhook webhookOutPart
  repeat' split
  all_goals
    first
    | exact Or.inl rfl
    | exact Or.inr (Or.inl ⟨rfl, rfl, Or.inl rfl⟩)
    | exact Or.inr (Or.inl ⟨rfl, rfl, Or.inr rfl⟩)
    | (refine Or.inr (Or.inr ⟨by simp_all, ?_⟩)
       first
       | rfl
       | simp_all [webhookSuccessDb, insertMessage, insertFollowup, okResponse,
           mkOutRow])

/-- The step-7 UPDATE never changes a row's id. -/
theorem applyInUpdate_id (i : Nat) (orch : OrchResult) (gs : String)
    (m : MessageRow) : (applyInUpdate i orch gs m).id = m.id := by
  unfold applyInUpdate; split <;> rfl

/-- A `skip` decision means the reply text, if it is a string at all, is
empty after trimming. -/
theorem outAction_skip_trim (j : Json) (h : outAction j = .skip) :
    ∀ s, j = Json.str s → jsTrim s = "" := by
  rintro s rfl
  by_cases hs : s = ""
  · subst hs; rfl
  · simp only [outAction] at h
    rw [if_neg (by simpa using hs)] at h
    split at h
    next h2 => simpa using h2
    next => exact absurd h (by simp)

/-- An `insertText` decision recovers the guard of step 5: the reply is
that very string and it survives trimming. -/
theorem outAction_insertText (j : Json) (s : String)
    (h : outAction j = .insertText s) : j = Json.str s ∧ jsTrim s ≠ "" := by
  cases j with
  | str s' =>
    simp only [outAction] at h
    by_cases hs : s' = ""
    · rw [if_pos (by simpa using hs)] at h
      exact absurd h (by simp)
    · rw [if_neg (by simpa using hs)] at h
      split at h
      next => exact absurd h (by simp)
      next h2 =>
        obtain rfl : s' = s := by injection h
        exact ⟨rfl, by simpa using h2⟩
  | null => exact absurd h (by simp [outAction, Json.truthy])
  | bool b => cases b <;> simp [outAction, Json.truthy] at h
  | num n =>
    simp only [outAction] at h
    split at h <;> exact absurd h (by simp)
  | arr xs => exact absurd h (by simp [outAction, Json.truthy])
  | obj kvs => exact absurd h (by simp [outAction, Json.truthy])

/-! ## Claim C1 — transactional atomicity of the webhook -/

/-- C1.  The handling of a request is atomic: whenever the handler answers
500 it answers exactly `{error: "internal_server_error"}` and the database
is exactly the pre-request one (every persisted effect rolled back, no
partial record); any non-200 outcome leaves the database unchanged; and
200, 400, 500 are the only possible statuses. -/
theorem webhook_transactional (db : DB) (body : Payload) (now : DateTime)
    (mo : ModelOutcome) (f : Failures) :
    ((handleWebhook db body now mo f).resp.status = 500 →
      (handleWebhook db body now mo f).resp = err500 ∧
      (handleWebhook db body now mo f).db = db) ∧
    ((handleWebhook db body now mo f).resp.status ≠ 200 →
      (handleWebhook db body now mo f).db = db) ∧
    ((handleWebhook db body now mo f).resp.status = 200 ∨
     (handleWebhook db body now mo f).resp.status = 400 ∨
     (handleWebhook db body now mo f).resp.status = 500) := by
  rcases webhook_run db body now mo f with h | ⟨h1, h2, _⟩ | ⟨_, h⟩
  · rw [h]
    exact ⟨fun h5 => absurd h5 (by simp [err400]), fun _ => rfl, Or.inr (Or.inl rfl)⟩
  · exact ⟨fun _ => ⟨h2, h1⟩, fun _ => h1, Or.inr (Or.inr (by rw [h2]; rfl))⟩
  · have hs : (handleWebhook db body now mo f).resp.status = 200 := by
      rw [h]; rfl
    exact ⟨fun h5 => absurd (hs.symm.trans h5) (by decide),
           fun hne => absurd hs hne, Or.inl hs⟩

/-- Witness for C1: a concrete valid request whose step-7 UPDATE fails is
rolled back — the response is the 500 error body and the database is
exactly the pre-request one. -/
theorem webhook_transactional_witness :
    (handleWebhook ⟨[], [], 1⟩ ⟨some "01012345678", none, none, some "hi", none, none⟩
        ⟨14⟩ (.content (some (.obj [("need_followup", .bool true)])))
        ⟨false, false, false, false, false, false, true, false⟩).resp = err500 ∧
    (handleWebhook ⟨[], [], 1⟩ ⟨some "01012345678", none, none, some "hi", none, none⟩
        ⟨14⟩ (.content (some (.obj [("need_followup", .bool true)])))
        ⟨false, false, false, false, false, false, true, false⟩).db = ⟨[], [], 1⟩ :=
  (webhook_transactional _ _ _ _ _).1 rfl

/-- A 200 response pins the handler's result to the success shape. -/
theorem webhook_success_of_200 (db : DB) (body : Payload) (now : DateTime)
    (mo : ModelOutcome) (f : Failures)
    (h200 : (handleWebhook db body now mo f).resp.status = 200) :
    handleWebhook db body now mo f =
      ⟨webhookSuccessDb db body now mo (webhookOutPart db body now mo),
       okResponse db.nextMsgId
         ((webhookOutPart db body now mo).head?.map (·.id))
         (runOrchestratorLLM mo),
       some (webText body now, webhookHistory db body now)⟩ := by
  rcases webhook_run db body now mo f with h | ⟨_, h2, _⟩ | ⟨_, h⟩
  · rw [h] at h200; exact absurd h200 (by simp [err400])
  · rw [h2] at h200; exact absurd h200 (by simp [err500])
  · exact h

/-! ## Claim C5 — resolved is the negation of need_followup -/

/-- C5.  On every committed request, each row persisted or updated by the
request (the IN row updated in step 7 and the OUT row inserted in step 5 —
exactly the rows whose id was assigned by this request) carries
`need_followup` equal to the orchestrator's flag and `resolved` equal to
its exact logical negation. -/
theorem webhook_resolved_negation (db : DB) (body : Payload) (now : DateTime)
    (mo : ModelOutcome) (f : Failures) (hwf : WFDb db)
    (h200 : (handleWebhook db body now mo f).resp.status = 200) :
    ∀ m ∈ (handleWebhook db body now mo f).db.messages, db.nextMsgId ≤ m.id →
      m.need_followup = some (runOrchestratorLLM mo).need_followup ∧
      m.resolved = some (!(runOrchestratorLLM mo).need_followup) := by
  rw [webhook_success_of_200 db body now mo f h200]
  intro m hm hid
  simp only [webhookSuccessDb] at hm
  rcases List.mem_map.mp hm with ⟨x, hx, rfl⟩
  rcases List.mem_append.mp hx with hxold | hxnew
  · have hlt := hwf.1 x hxold
    have hne : ¬(x.id = db.nextMsgId) := by omega
    rw [applyInUpdate, if_neg (by simpa using hne)] at hid
    omega
  · rcases List.mem_cons.mp hxnew with rfl | hxout
    · simp [applyInUpdate, webhookInRow, mkInRow]
    · unfold webhookOutPart at hxout
      split at hxout
      · simp only [List.mem_singleton] at hxout
        subst hxout
        have hne : ¬(db.nextMsgId + 1 = db.nextMsgId) := by omega
        simp [applyInUpdate, mkOutRow, hne]
      · simp at hxout

/-- Witness for C5: a concrete committed exchange in which the
orchestrator flags follow-up; both freshly written rows show
`need_followup = true` and `resolved = false`. -/
theorem webhook_resolved_negation_witness :
    (handleWebhook ⟨[], [], 1⟩ ⟨some "01012345678", none, none, some "hi", none, none⟩ ⟨14⟩
        (.content (some (.obj [("reply_text", .str "OK"), ("need_followup", .bool true)])))
        ⟨false, false, false, false, false, false, false, false⟩).resp.status = 200 ∧
    ∀ m ∈ (handleWebhook ⟨[], [], 1⟩ ⟨some "01012345678", none, none, some "hi", none, none⟩ ⟨14⟩
        (.content (some (.obj [("reply_text", .str "OK"), ("need_followup", .bool true)])))
        ⟨false, false, false, false, false, false, false, false⟩).db.messages,
      (1:Nat) ≤ m.id → m.need_followup = some true ∧ m.resolved = some false :=
  ⟨by rfl,
   webhook_resolved_negation _ _ _ _ _
     ⟨fun m hm => by simp at hm, fun fq hf => by simp at hf⟩ (by rfl)⟩

/-! ## Claim C6 — follow-up entry exactly when flagged -/

/-- C6.  On every committed request, the handler appends a
`PENDING`/`LLM_FLAGGED` follow-up entry referencing the inbound message's
id exactly when the orchestrator flagged follow-up, a follow-up entry for
this message exists if and only if that flag was true, and — in the same
transaction — the IN row's `need_followup` column is updated to that very
value. -/
theorem webhook_followup_iff (db : DB) (body : Payload) (now : DateTime)
    (mo : ModelOutcome) (f : Failures) (hwf : WFDb db)
    (h200 : (handleWebhook db body now mo f).resp.status = 200) :
    ((handleWebhook db body now mo f).db.followups =
      db.followups ++
        (if (runOrchestratorLLM mo).need_followup then
          [⟨db.nextMsgId, "PENDING", some "LLM_FLAGGED"⟩] else [])) ∧
    ((∃ fq ∈ (handleWebhook db body now mo f).db.followups,
        fq.message_id = db.nextMsgId) ↔
      (runOrchestratorLLM mo).need_followup = true) ∧
    (∀ m ∈ (handleWebhook db body now mo f).db.messages, m.id = db.nextMsgId →
      m.need_followup = some (runOrchestratorLLM mo).need_followup) := by
  rw [webhook_success_of_200 db body now mo f h200]
  refine ⟨rfl, ⟨?_, ?_⟩, ?_⟩
  · rintro ⟨fq, hfq, hid⟩
    simp only [webhookSuccessDb] at hfq
    rcases List.mem_append.mp hfq with hfold | hfnew
    · have := hwf.2 fq hfold
      omega
    · cases hnf : (runOrchestratorLLM mo).need_followup
      · rw [hnf] at hfnew
        simp at hfnew
      · rfl
  · intro hnf
    refine ⟨⟨db.nextMsgId, "PENDING", some "LLM_FLAGGED"⟩, ?_, rfl⟩
    simp [webhookSuccessDb, hnf]
  · intro m hm hid
    simp only [webhookSuccessDb] at hm
    rcases List.mem_map.mp hm with ⟨x, hx, rfl⟩
    rw [applyInUpdate_id] at hid
    rcases List.mem_append.mp hx with hxold | hxnew
    · have := hwf.1 x hxold
      omega
    · rcases List.mem_cons.mp hxnew with rfl | hxout
      · simp [applyInUpdate, webhookInRow, mkInRow]
      · unfold webhookOutPart at hxout
        split at hxout
        · simp only [List.mem_singleton] at hxout
          subst hxout
          rw [mkOutRow] at hid
          simp at hid
        · simp at hxout

/-- Witness for C6: in a concrete committed exchange where the
orchestrator flags follow-up, the queue gains exactly the PENDING entry
for the inbound id, an entry referencing it exists, and the IN row's
`need_followup` was updated to true. -/
theorem webhook_followup_iff_witness :
    ((handleWebhook ⟨[], [], 1⟩ ⟨some "01012345678", none, none, some "hi", none, none⟩ ⟨14⟩
        (.content (some (.obj [("reply_text", .str "OK"), ("need_followup", .bool true)])))
        ⟨false, false, false, false, false, false, false, false⟩).db.followups =
      [] ++ [⟨1, "PENDING", some "LLM_FLAGGED"⟩]) ∧
    ((∃ fq ∈ (handleWebhook ⟨[], [], 1⟩ ⟨some "01012345678", none, none, some "hi", none, none⟩ ⟨14⟩
        (.content (some (.obj [("reply_text", .str "OK"), ("need_followup", .bool true)])))
        ⟨false, false, false, false, false, false, false, false⟩).db.followups,
        fq.message_id = 1) ↔ True) ∧
    (∀ m ∈ (handleWebhook ⟨[], [], 1⟩ ⟨some "01012345678", none, none, some "hi", none, none⟩ ⟨14⟩
        (.content (some (.obj [("reply_text", .str "OK"), ("need_followup", .bool true)])))
        ⟨false, false, false, false, false, false, false, false⟩).db.messages,
      m.id = 1 → m.need_followup = some true) := by
  have h := webhook_followup_iff ⟨[], [], 1⟩
    ⟨some "01012345678", none, none, some "hi", none, none⟩ ⟨14⟩
    (.content (some (.obj [("reply_text", .str "OK"), ("need_followup", .bool true)])))
    ⟨false, false, false, false, false, false, false, false⟩
    ⟨fun m hm => by simp at hm, fun fq hf => by simp at hf⟩ (by rfl)
  exact ⟨h.1, by rw [h.2.1]; simp only [iff_true]; rfl, h.2.2⟩

/-! ## Claim C7 — one IN row, at most one OUT row -/

/-- A committed request never came from the `TypeError` branch of the
OUT-insert guard. -/
theorem webhook_200_not_throw (db : DB) (body : Payload) (now : DateTime)
    (mo : ModelOutcome) (f : Failures)
    (h200 : (handleWebhook db body now mo f).resp.status = 200) :
    outAction (runOrchestratorLLM mo).reply_text ≠ .throwErr := by
  rcases webhook_run db body now mo f with h | ⟨_, h2, _⟩ | ⟨hne, _⟩
  · rw [h] at h200; exact absurd h200 (by simp [err400])
  · rw [h2] at h200; exact absurd h200 (by simp [err500])
  · exact hne

/-- C7.  On every committed request, exactly one IN row is appended (with
the parsed sender and text), and at most one OUT row: the OUT row exists
precisely when the orchestrator's reply text is a string that is non-empty
after trimming, and when it exists its `reply_to_id` is the IN row's id. -/
theorem webhook_in_out_rows (db : DB) (body : Payload) (now : DateTime)
    (mo : ModelOutcome) (f : Failures) (hwf : WFDb db)
    (h200 : (handleWebhook db body now mo f).resp.status = 200) :
    ∃ inR : MessageRow,
      inR.direction = "IN" ∧ inR.id = db.nextMsgId ∧
      inR.phone_number = webFrom body now ∧ inR.text = webText body now ∧
      (((handleWebhook db body now mo f).db.messages = db.messages ++ [inR] ∧
        (∀ s, (runOrchestratorLLM mo).reply_text = Json.str s → jsTrim s = "")) ∨
       (∃ outR s, (handleWebhook db body now mo f).db.messages
          = db.messages ++ [inR, outR] ∧
        outR.direction = "OUT" ∧ outR.reply_to_id = some inR.id ∧
        (runOrchestratorLLM mo).reply_text = Json.str s ∧ jsTrim s ≠ "" ∧
        outR.text = s)) := by
  rw [webhook_success_of_200 db body now mo f h200]
  have hold : db.messages.map
      (applyInUpdate db.nextMsgId (runOrchestratorLLM mo) "UNKNOWN") = db.messages :=
    map_applyInUpdate_of_ne _ _ _ _
      (fun m hm => by have := hwf.1 m hm; omega)
  refine ⟨applyInUpdate db.nextMsgId (runOrchestratorLLM mo) "UNKNOWN"
    (webhookInRow db body now), ?_, ?_, ?_, ?_, ?_⟩
  · simp [applyInUpdate, webhookInRow, mkInRow]
  · simp [applyInUpdate, webhookInRow, mkInRow]
  · simp [applyInUpdate, webhookInRow, mkInRow]
  · simp [applyInUpdate, webhookInRow, mkInRow]
  · cases hact : outAction (runOrchestratorLLM mo).reply_text with
    | skip =>
      left
      constructor
      · simp only [webhookSuccessDb, webhookOutPart, hact, List.map_append,
          List.map_cons, List.map_nil, hold]
      · exact outAction_skip_trim _ hact
    | throwErr => exact absurd hact (webhook_200_not_throw db body now mo f h200)
    | insertText s =>
      right
      obtain ⟨hstr, htrim⟩ := outAction_insertText _ _ hact
      refine ⟨applyInUpdate db.nextMsgId (runOrchestratorLLM mo) "UNKNOWN"
        (mkOutRow (db.nextMsgId + 1) (webFrom body now) s
          (runOrchestratorLLM mo) "UNKNOWN" db.nextMsgId), s, ?_, ?_, ?_,
        hstr, htrim, ?_⟩
      · simp only [webhookSuccessDb, webhookOutPart, hact, List.map_append,
          List.map_cons, List.map_nil, hold]
      · have hne : ¬((db.nextMsgId + 1 : Nat) = db.nextMsgId) := by omega
        simp [applyInUpdate, mkOutRow, hne]
      · have hne : ¬((db.nextMsgId + 1 : Nat) = db.nextMsgId) := by omega
        simp [applyInUpdate, mkOutRow, hne, webhookInRow, mkInRow]
      · have hne : ¬((db.nextMsgId + 1 : Nat) = db.nextMsgId) := by omega
        simp [applyInUpdate, mkOutRow, hne]

/-- Witness for C7: a concrete committed exchange with reply `"OK"`
persists exactly one IN row and one OUT row, the OUT row replying to the
IN row's id with the trimmed-non-empty reply text. -/
theorem webhook_in_out_rows_witness :
    ∃ inR : MessageRow,
      inR.direction = "IN" ∧ inR.id = 1 ∧
      inR.phone_number = "01012345678" ∧ inR.text = "hi" ∧
      (((handleWebhook ⟨[], [], 1⟩ ⟨some "01012345678", none, none, some "hi", none, none⟩ ⟨14⟩
          (.content (some (.obj [("reply_text", .str "OK"), ("need_followup", .bool true)])))
          ⟨false, false, false, false, false, false, false, false⟩).db.messages
          = [] ++ [inR] ∧
        (∀ s, (runOrchestratorLLM (.content (some (.obj
            [("reply_text", .str "OK"), ("need_followup", .bool true)])))).reply_text
          = Json.str s → jsTrim s = "")) ∨
       (∃ outR s,
        (handleWebhook ⟨[], [], 1⟩ ⟨some "01012345678", none, none, some "hi", none, none⟩ ⟨14⟩
          (.content (some (.obj [("reply_text", .str "OK"), ("need_followup", .bool true)])))
          ⟨false, false, false, false, false, false, false, false⟩).db.messages
          = [] ++ [inR, outR] ∧
        outR.direction = "OUT" ∧ outR.reply_to_id = some inR.id ∧
        (runOrchestratorLLM (.content (some (.obj
            [("reply_text", .str "OK"), ("need_followup", .bool true)])))).reply_text
          = Json.str s ∧ jsTrim s ≠ "" ∧ outR.text = s)) :=
  webhook_in_out_rows ⟨[], [], 1⟩ ⟨some "01012345678", none, none, some "hi", none, none⟩
    ⟨14⟩ (.content (some (.obj [("reply_text", .str "OK"), ("need_followup", .bool true)])))
    ⟨false, false, false, false, false, false, false, false⟩
    ⟨fun m hm => by simp at hm, fun fq hf => by simp at hf⟩ (by rfl)

/-! ## Claim C10 — history passed to the orchestrator -/

/-- The history built for the orchestrator has at most 10 entries and ends
with the just-inserted IN row: inside the transaction that row carries the
sender's highest id, so the descending sort puts it first and the
reversal into chronological order puts it last. -/
theorem webhookHistory_spec (db : DB) (body : Payload) (now : DateTime)
    (hwf : WFDb db) :
    (webhookHistory db body now).length ≤ 10 ∧
    (webhookHistory db body now).getLast? = some ("IN", webText body now) := by
  have hfil : (db.messages ++ [webhookInRow db body now]).filter
      (fun m => m.phone_number == webFrom body now)
      = db.messages.filter (fun m => m.phone_number == webFrom body now)
        ++ [webhookInRow db body now] := by
    rw [List.filter_append]
    simp [webhookInRow, mkInRow]
  have hq : queryHistory (db.messages ++ [webhookInRow db body now]) (webFrom body now)
      = webhookInRow db body now ::
        (sortByIdDesc (db.messages.filter
          (fun m => m.phone_number == webFrom body now))).take 9 := by
    unfold queryHistory
    rw [hfil, sortByIdDesc_append_max]
    · exact List.take_succ_cons
    · intro x hx
      have hlt := hwf.1 x (List.mem_filter.mp hx).1
      simpa [webhookInRow, mkInRow] using hlt
  unfold webhookHistory
  rw [hq]
  constructor
  · simp only [List.length_map, List.length_reverse, List.length_cons]
    have := List.length_take_le 9 (sortByIdDesc (db.messages.filter
      (fun m => m.phone_number == webFrom body now)))
    omega
  · rw [List.map_reverse, List.getLast?_reverse, List.head?_map]
    rfl

/-- C10.  Whenever the pipeline reaches the orchestrator call, what it
passes is the latest text together with the sender's last-10 history
(fetched by descending id, limit 10, then reversed into chronological
order), whose final entry is the just-received inbound message itself. -/
theorem webhook_llm_history (db : DB) (body : Payload) (now : DateTime)
    (mo : ModelOutcome) (f : Failures) (hwf : WFDb db) :
    ∀ t h, (handleWebhook db body now mo f).llmCall = some (t, h) →
      t = webText body now ∧ h = webhookHistory db body now ∧
      h.length ≤ 10 ∧ h.getLast? = some ("IN", t) := by
  intro t h hc
  have get : (handleWebhook db body now mo f).llmCall =
      some (webText body now, webhookHistory db body now) →
      t = webText body now ∧ h = webhookHistory db body now ∧
      h.length ≤ 10 ∧ h.getLast? = some ("IN", t) := by
    intro hl
    have hth : some (t, h) = some (webText body now, webhookHistory db body now) :=
      hc.symm.trans hl
    simp only [Option.some.injEq, Prod.mk.injEq] at hth
    obtain ⟨ht, hh⟩ := hth
    subst ht; subst hh
    exact ⟨rfl, rfl, (webhookHistory_spec db body now hwf).1,
      (webhookHistory_spec db body now hwf).2⟩
  rcases webhook_run db body now mo f with hr | ⟨_, _, hl | hl⟩ | ⟨_, hr⟩
  · rw [hr] at hc; exact absurd hc (by simp)
  · rw [hl] at hc; exact absurd hc (by simp)
  · exact get hl
  · exact get (by rw [hr])

/-- Witness for C10: on an empty database a request with text `"hi"`
passes exactly that text to the model, and the one-entry history ends with
the inbound message itself. -/
theorem webhook_llm_history_witness :
    ("hi" : String) = webText ⟨some "01012345678", none, none, some "hi", none, none⟩ ⟨14⟩ ∧
    ([("IN", "hi")] : List (String × String)) =
      webhookHistory ⟨[], [], 1⟩ ⟨some "01012345678", none, none, some "hi", none, none⟩ ⟨14⟩ ∧
    ([("IN", "hi")] : List (String × String)).length ≤ 10 ∧
    ([("IN", "hi")] : List (String × String)).getLast? = some ("IN", "hi") :=
  webhook_llm_history ⟨[], [], 1⟩ ⟨some "01012345678", none, none, some "hi", none, none⟩
    ⟨14⟩ (.content (some (.obj [("reply_text", .str "OK")])))
    ⟨false, false, false, false, false, false, false, false⟩
    ⟨fun m hm => by simp at hm, fun fq hf => by simp at hf⟩
    "hi" [("IN", "hi")] (by rfl)

/-! ## Claim C4 — orchestrator output normalization -/

/-- C4 (amended).  `runOrchestratorLLM` is total (no failure reaches its
caller).  A transport error, an unparseable body, or a parsed value that
is JS-falsy or not of `typeof "object"` yields the canonical fallback
(arrays, having `typeof "object"`, instead take the coercion path with
every named field absent).  When an object is parsed, a missing or falsy
field is replaced by its default (`reply_text` → `""`, `intent` →
`"GENERIC"`, `flow_type` → `null`, `slots` → `{}`), a truthy value is kept
verbatim without type validation, and `need_followup`/`end_flow` are
coerced to booleans by truthiness (absent meaning false). -/
theorem orch_normalization (mo : ModelOutcome) :
    (mo = .transportError → runOrchestratorLLM mo = fallbackOrchResult) ∧
    (mo = .content none → runOrchestratorLLM mo = fallbackOrchResult) ∧
    (∀ j, mo = .content (some j) → (j.truthy = false ∨ j.typeofIsObject = false) →
      runOrchestratorLLM mo = fallbackOrchResult) ∧
    (∀ xs, mo = .content (some (.arr xs)) →
      runOrchestratorLLM mo =
        { reply_text := .str "", intent := .str "GENERIC", flow_type := .null
          slots := .obj [], need_followup := false, end_flow := false }) ∧
    (∀ kvs, mo = .content (some (.obj kvs)) →
      ((Json.obj kvs).getField "reply_text" = none →
        (runOrchestratorLLM mo).reply_text = .str "") ∧
      (∀ v, (Json.obj kvs).getField "reply_text" = some v →
        (runOrchestratorLLM mo).reply_text = if v.truthy then v else .str "") ∧
      ((Json.obj kvs).getField "intent" = none →
        (runOrchestratorLLM mo).intent = .str "GENERIC") ∧
      (∀ v, (Json.obj kvs).getField "intent" = some v →
        (runOrchestratorLLM mo).intent = if v.truthy then v else .str "GENERIC") ∧
      ((Json.obj kvs).getField "flow_type" = none →
        (runOrchestratorLLM mo).flow_type = .null) ∧
      (∀ v, (Json.obj kvs).getField "flow_type" = some v →
        (runOrchestratorLLM mo).flow_type = if v.truthy then v else .null) ∧
      ((Json.obj kvs).getField "slots" = none →
        (runOrchestratorLLM mo).slots = .obj []) ∧
      (∀ v, (Json.obj kvs).getField "slots" = some v →
        (runOrchestratorLLM mo).slots = if v.truthy then v else .obj []) ∧
      ((runOrchestratorLLM mo).need_followup =
        (jsGet (Json.obj kvs) "need_followup").truthy) ∧
      ((runOrchestratorLLM mo).end_flow =
        (jsGet (Json.obj kvs) "end_flow").truthy)) := by
  refine ⟨fun h => by subst h; rfl, fun h => by subst h; rfl, ?_, ?_, ?_⟩
  · rintro j rfl h
    rcases h with h | h <;>
      simp [runOrchestratorLLM, h]
  · rintro xs rfl
    rfl
  · rintro kvs rfl
    refine ⟨?_, ?_, ?_, ?_, ?_, ?_, ?_, ?_, ?_, ?_⟩ <;>
      first
      | (intro h
         simp [runOrchestratorLLM, jsGet, jsOr, h, Json.truthy, Json.typeofIsObject])
      | (intro v h
         simp [runOrchestratorLLM, jsGet, jsOr, h, Json.truthy, Json.typeofIsObject])
      | simp [runOrchestratorLLM, jsGet, jsOr, Json.truthy, Json.typeofIsObject]

/-- C4 counterexample to the claim as stated: the value `42` is invalid
for `flow_type` (the schema allows only a string or null), yet the code
keeps it verbatim instead of coercing it to null, because the `||`
coercion only replaces falsy values. -/
theorem orch_claim_counterexample :
    (runOrchestratorLLM
      (.content (some (Json.obj [("flow_type", Json.num 42)])))).flow_type
      = Json.num 42 ∧ Json.num 42 ≠ Json.null :=
  ⟨rfl, fun h => Json.noConfusion h⟩

/-- Witness for C4: the transport-error branch yields the canonical
fallback. -/
theorem orch_normalization_witness :
    runOrchestratorLLM ModelOutcome.transportError = fallbackOrchResult :=
  (orch_normalization ModelOutcome.transportError).1 rfl

/-! ## Claim C9 — config cache reload -/

/-- C9.  If any of `loadConfig`'s three reads fails, the `cachedConfig`
snapshot is left completely unchanged; on success the snapshot is replaced
wholesale by one assignment of a newly built object — the result is
independent of the previous snapshot. -/
theorem loadConfig_snapshot (prev prev' : ConfigSnapshot) (now : DateTime)
    (intentsQ : Except String (List IntentRow))
    (settingsQ : Except String (List BotSettingRow))
    (tmplQ : Except String (List TemplateRow)) :
    ((intentsQ.isOk = false ∨ settingsQ.isOk = false ∨ tmplQ.isOk = false) →
      loadConfig prev now intentsQ settingsQ tmplQ = (prev, false)) ∧
    ((loadConfig prev now intentsQ settingsQ tmplQ).2 = true →
      (loadConfig prev now intentsQ settingsQ tmplQ).1 =
        (loadConfig prev' now intentsQ settingsQ tmplQ).1) := by
  cases intentsQ <;> cases settingsQ <;> cases tmplQ <;>
    simp [loadConfig, Except.isOk, Except.toBool]

/-- Witness for C9: a failing `intents` read leaves a sample snapshot in
place, and a successful reload of a different sample yields the same new
snapshot from any previous one. -/
theorem loadConfig_snapshot_witness :
    loadConfig ⟨[], [], [], none⟩ ⟨14⟩ (.error "connection closed") (.ok []) (.ok [])
      = (⟨[], [], [], none⟩, false) ∧
    (loadConfig ⟨[], [], [], none⟩ ⟨14⟩ (.ok []) (.ok []) (.ok [])).1 =
      (loadConfig ⟨[], ["X"], [], some ⟨3⟩⟩ ⟨14⟩ (.ok []) (.ok []) (.ok [])).1 :=
  ⟨(loadConfig_snapshot ⟨[], [], [], none⟩ ⟨[], [], [], none⟩ ⟨14⟩
      (.error "connection closed") (.ok []) (.ok [])).1 (Or.inl rfl),
   (loadConfig_snapshot ⟨[], [], [], none⟩ ⟨[], ["X"], [], some ⟨3⟩⟩ ⟨14⟩
      (.ok []) (.ok []) (.ok [])).2 rfl⟩

/-! ## Claim C8 — input validation -/

/-- C8.  A request whose extracted sender or text is empty is answered
with 400 and `{error: "from, text is required"}` while the database is
untouched (for every failure pattern and model outcome, i.e. before any
side effect); and an absent `receivedAt` defaults to the current time. -/
theorem webhook_validation (db : DB) (body : Payload) (now : DateTime)
    (mo : ModelOutcome) (f : Failures) :
    ((webFrom body now = "" ∨ webText body now = "") →
      handleWebhook db body now mo f = ⟨db, err400, none⟩) ∧
    (body.bodyReceivedAt = none →
      (parseSmsProviderPayload body now).receivedAt = now) := by
  constructor
  · intro h
    have hcond : ((webFrom body now == "") || (webText body now == "")) = true := by
      rcases h with h | h <;> simp [h]
    unfold handleWebhook
    rw [if_pos hcond]
  · intro h
    simp [parseSmsProviderPayload, h]

/-- Witness for C8: a request with a sender number but empty text is
rejected with the 400 body on an untouched sample database, and the absent
`receivedAt` parses to the supplied current time. -/
theorem webhook_validation_witness :
    handleWebhook ⟨[], [], 1⟩ ⟨some "01012345678", none, none, none, none, none⟩
        ⟨14⟩ .transportError ⟨false, false, false, false, false, false, false, false⟩
      = ⟨⟨[], [], 1⟩, err400, none⟩ ∧
    (parseSmsProviderPayload ⟨some "01012345678", none, none, none, none, none⟩
        ⟨14⟩).receivedAt = ⟨14⟩ :=
  ⟨(webhook_validation ⟨[], [], 1⟩ ⟨some "01012345678", none, none, none, none, none⟩
      ⟨14⟩ .transportError ⟨false, false, false, false, false, false, false, false⟩).1
      (Or.inr rfl),
   (webhook_validation ⟨[], [], 1⟩ ⟨some "01012345678", none, none, none, none, none⟩
      ⟨14⟩ .transportError ⟨false, false, false, false, false, false, false, false⟩).2
      rfl⟩

/-! ## Claims C2 and C3 — policy engine of the earlier revision -/

/-- The messages table after the earlier revision's handler, spelled out:
the old rows untouched, the IN row updated with the decision's follow-up
flag, the OUT row as inserted. -/
theorem webhook0Db_messages (cfg : CachedConfig0) (db : DB) (body : Payload)
    (now : DateTime) (cls : IntentResult) (llmReply : String) (hwf : WFDb db) :
    (webhook0Db cfg db body now cls llmReply).messages
      = db.messages ++
        [applyInUpdate0 db.nextMsgId cls "UNKNOWN"
          (webhook0Decision cfg body now cls llmReply).2.1
          (!(webhook0Decision cfg body now cls llmReply).2.1)
          (webhookInRow db body now),
         webhook0OutRow cfg db body now cls llmReply] := by
  have hold : ∀ nf rs, db.messages.map
      (applyInUpdate0 db.nextMsgId cls "UNKNOWN" nf rs) = db.messages :=
    fun nf rs => map_applyInUpdate0_of_ne _ _ _ _ _ _
      (fun m hm => by have := hwf.1 m hm; omega)
  have hout : ∀ nf rs, applyInUpdate0 db.nextMsgId cls "UNKNOWN" nf rs
      (webhook0OutRow cfg db body now cls llmReply)
      = webhook0OutRow cfg db body now cls llmReply := by
    intro nf rs
    have hne : ¬((db.nextMsgId + 1 : Nat) = db.nextMsgId) := by omega
    simp [applyInUpdate0, webhook0OutRow, mkOutRow0, hne]
  unfold webhook0Db
  cases hdec : (webhook0Decision cfg body now cls llmReply).2.1 <;>
    simp [hdec, insertMessage, insertFollowup, hold, hout]

/-- The follow-up queue after the earlier revision's handler: one PENDING
entry for the inbound id with the decision's reason, exactly when the
decision requires follow-up. -/
theorem webhook0Db_followups (cfg : CachedConfig0) (db : DB) (body : Payload)
    (now : DateTime) (cls : IntentResult) (llmReply : String) :
    (webhook0Db cfg db body now cls llmReply).followups
      = db.followups ++
        (if (webhook0Decision cfg body now cls llmReply).2.1 then
          [⟨db.nextMsgId, "PENDING", (webhook0Decision cfg body now cls llmReply).2.2⟩]
        else []) := by
  unfold webhook0Db
  cases hdec : (webhook0Decision cfg body now cls llmReply).2.1 <;>
    simp [hdec, insertMessage, insertFollowup]

/-- A valid request makes the earlier revision's handler return the
spelled-out success pair. -/
theorem webhook0_valid (cfg : CachedConfig0) (db : DB) (body : Payload)
    (now : DateTime) (cls : IntentResult) (llmReply : String)
    (hfrom : ¬ webFrom body now = "") (htext : ¬ webText body now = "") :
    handleWebhook0 cfg db body now cls llmReply
      = (webhook0Db cfg db body now cls llmReply,
         okResponse0 db.nextMsgId (db.nextMsgId + 1) cls "UNKNOWN"
           (isNightTime (parseSmsProviderPayload body now).receivedAt)
           (webhook0Decision cfg body now cls llmReply).2.1) := by
  unfold handleWebhook0
  rw [if_neg (by simp [hfrom, htext])]

/-- C2.  Whenever the classifier sets `is_complaint`, the earlier
revision's pipeline takes complaint mode — regardless of the time of day
and of the classified intent: the persisted OUT row's text is the
configured complaint template, `need_followup` is forced true on both
rows (`resolved` false), and the enqueued follow-up entry's reason is
`COMPLAINT`. -/
theorem webhook0_complaint (cfg : CachedConfig0) (db : DB) (body : Payload)
    (now : DateTime) (cls : IntentResult) (llmReply : String)
    (hwf : WFDb db) (hfrom : ¬ webFrom body now = "")
    (htext : ¬ webText body now = "") (hc : cls.is_complaint = true) :
    ∃ inR outR : MessageRow,
      (handleWebhook0 cfg db body now cls llmReply).1.messages
        = db.messages ++ [inR, outR] ∧
      inR.direction = "IN" ∧ inR.need_followup = some true ∧
      inR.resolved = some false ∧
      outR.direction = "OUT" ∧ outR.text = cfg.complaintReply ∧
      outR.need_followup = some true ∧ outR.resolved = some false ∧
      outR.reply_to_id = some db.nextMsgId ∧
      (handleWebhook0 cfg db body now cls llmReply).1.followups
        = db.followups ++ [⟨db.nextMsgId, "PENDING", some "COMPLAINT"⟩] ∧
      (handleWebhook0 cfg db body now cls llmReply).2.status = 200 := by
  have hdec : webhook0Decision cfg body now cls llmReply
      = (cfg.complaintReply, true, some "COMPLAINT") := by
    unfold webhook0Decision
    rw [if_pos (by simp [isComplaint, hc])]
    rfl
  have hh := webhook0_valid cfg db body now cls llmReply hfrom htext
  refine ⟨applyInUpdate0 db.nextMsgId cls "UNKNOWN" true false (webhookInRow db body now),
    webhook0OutRow cfg db body now cls llmReply,
    ?_, ?_, ?_, ?_, ?_, ?_, ?_, ?_, ?_, ?_, ?_⟩
  · rw [hh]
    rw [show (webhook0Db cfg db body now cls llmReply,
        okResponse0 db.nextMsgId (db.nextMsgId + 1) cls "UNKNOWN"
          (isNightTime (parseSmsProviderPayload body now).receivedAt)
          (webhook0Decision cfg body now cls llmReply).2.1).1
        = webhook0Db cfg db body now cls llmReply from rfl]
    rw [webhook0Db_messages cfg db body now cls llmReply hwf]
    simp [hdec]
  · simp [applyInUpdate0, webhookInRow, mkInRow]
  · simp [applyInUpdate0, webhookInRow, mkInRow]
  · simp [applyInUpdate0, webhookInRow, mkInRow]
  · simp [webhook0OutRow, mkOutRow0]
  · simp [webhook0OutRow, mkOutRow0, hdec]
  · simp [webhook0OutRow, mkOutRow0, hdec]
  · simp [webhook0OutRow, mkOutRow0, hdec]
  · simp [webhook0OutRow, mkOutRow0]
  · rw [hh]
    rw [show (webhook0Db cfg db body now cls llmReply,
        okResponse0 db.nextMsgId (db.nextMsgId + 1) cls "UNKNOWN"
          (isNightTime (parseSmsProviderPayload body now).receivedAt)
          (webhook0Decision cfg body now cls llmReply).2.1).1
        = webhook0Db cfg db body now cls llmReply from rfl]
    rw [webhook0Db_followups cfg db body now cls llmReply]
    simp [hdec]
  · rw [hh]; rfl

/-- Witness for C2: a complaint-flagged message at a daytime hour with an
action intent still takes complaint mode: the OUT text is the configured
complaint template and the follow-up reason is `COMPLAINT`. -/
theorem webhook0_complaint_witness :
    ∃ inR outR : MessageRow,
      (handleWebhook0 ⟨["CHECKIN"], "NIGHT", "SORRY"⟩ ⟨[], [], 1⟩
        ⟨some "01012345678", none, none, some "hi", none, none⟩ ⟨14⟩
        ⟨"CHECKIN", 1, true⟩ "GEN").1.messages = [] ++ [inR, outR] ∧
      inR.direction = "IN" ∧ inR.need_followup = some true ∧
      inR.resolved = some false ∧
      outR.direction = "OUT" ∧ outR.text = "SORRY" ∧
      outR.need_followup = some true ∧ outR.resolved = some false ∧
      outR.reply_to_id = some 1 ∧
      (handleWebhook0 ⟨["CHECKIN"], "NIGHT", "SORRY"⟩ ⟨[], [], 1⟩
        ⟨some "01012345678", none, none, some "hi", none, none⟩ ⟨14⟩
        ⟨"CHECKIN", 1, true⟩ "GEN").1.followups
        = [] ++ [⟨1, "PENDING", some "COMPLAINT"⟩] ∧
      (handleWebhook0 ⟨["CHECKIN"], "NIGHT", "SORRY"⟩ ⟨[], [], 1⟩
        ⟨some "01012345678", none, none, some "hi", none, none⟩ ⟨14⟩
        ⟨"CHECKIN", 1, true⟩ "GEN").2.status = 200 :=
  webhook0_complaint ⟨["CHECKIN"], "NIGHT", "SORRY"⟩ ⟨[], [], 1⟩
    ⟨some "01012345678", none, none, some "hi", none, none⟩ ⟨14⟩
    ⟨"CHECKIN", 1, true⟩ "GEN"
    ⟨fun m hm => by simp at hm, fun fq hf => by simp at hf⟩
    (by decide) (by decide) rfl

/-- C3.  `isNightTime` holds exactly for Asia/Seoul hours `3 ≤ h < 10`;
for a non-complaint message, night deferral fires exactly when the
received time is in that window AND the classified intent is in the
cached action-intent name set — then the reply is the configured
night-deferral template with follow-up forced and reason `NIGHT_ACTION` —
and otherwise normal orchestration runs: the reply is the LLM-generated
one, no follow-up, queue untouched. -/
theorem webhook0_night_defer (cfg : CachedConfig0) (db : DB) (body : Payload)
    (now : DateTime) (cls : IntentResult) (llmReply : String)
    (hwf : WFDb db) (hfrom : ¬ webFrom body now = "")
    (htext : ¬ webText body now = "") (hnc : cls.is_complaint = false) :
    (∀ d : DateTime, isNightTime d = true ↔ 3 ≤ d.kstHour ∧ d.kstHour < 10) ∧
    ((isNightTime (parseSmsProviderPayload body now).receivedAt = true ∧
      cfg.actionIntentNames.contains cls.intent = true) →
      ∃ inR outR : MessageRow,
        (handleWebhook0 cfg db body now cls llmReply).1.messages
          = db.messages ++ [inR, outR] ∧
        inR.need_followup = some true ∧
        outR.text = cfg.nightDeferReply ∧ outR.need_followup = some true ∧
        (handleWebhook0 cfg db body now cls llmReply).1.followups
          = db.followups ++ [⟨db.nextMsgId, "PENDING", some "NIGHT_ACTION"⟩] ∧
        (handleWebhook0 cfg db body now cls llmReply).2.status = 200) ∧
    (¬(isNightTime (parseSmsProviderPayload body now).receivedAt = true ∧
        cfg.actionIntentNames.contains cls.intent = true) →
      ∃ inR outR : MessageRow,
        (handleWebhook0 cfg db body now cls llmReply).1.messages
          = db.messages ++ [inR, outR] ∧
        inR.need_followup = some false ∧
        outR.text = llmReply ∧ outR.need_followup = some false ∧
        (handleWebhook0 cfg db body now cls llmReply).1.followups
          = db.followups ∧
        (handleWebhook0 cfg db body now cls llmReply).2.status = 200) := by
  have hh := webhook0_valid cfg db body now cls llmReply hfrom htext
  have hfst : (handleWebhook0 cfg db body now cls llmReply).1
      = webhook0Db cfg db body now cls llmReply := by rw [hh]
  refine ⟨?_, ?_, ?_⟩
  · intro d
    simp [isNightTime]
  · intro hna
    have hdec : webhook0Decision cfg body now cls llmReply
        = (cfg.nightDeferReply, true, some "NIGHT_ACTION") := by
      unfold webhook0Decision
      rw [if_neg (by simp [isComplaint, hnc]),
        if_pos (by rw [hna.1, hna.2]; rfl)]
      rfl
    refine ⟨applyInUpdate0 db.nextMsgId cls "UNKNOWN" true false (webhookInRow db body now),
      webhook0OutRow cfg db body now cls llmReply, ?_, ?_, ?_, ?_, ?_, ?_⟩
    · rw [hfst, webhook0Db_messages cfg db body now cls llmReply hwf]
      simp [hdec]
    · simp [applyInUpdate0, webhookInRow, mkInRow]
    · simp [webhook0OutRow, mkOutRow0, hdec]
    · simp [webhook0OutRow, mkOutRow0, hdec]
    · rw [hfst, webhook0Db_followups cfg db body now cls llmReply]
      simp [hdec]
    · rw [hh]; rfl
  · intro hno
    have hdec : webhook0Decision cfg body now cls llmReply
        = (llmReply, false, none) := by
      unfold webhook0Decision
      rw [if_neg (by simp [isComplaint, hnc]),
        if_neg (by simpa [Bool.and_eq_true] using hno)]
    refine ⟨applyInUpdate0 db.nextMsgId cls "UNKNOWN" false true (webhookInRow db body now),
      webhook0OutRow cfg db body now cls llmReply, ?_, ?_, ?_, ?_, ?_, ?_⟩
    · rw [hfst, webhook0Db_messages cfg db body now cls llmReply hwf]
      simp [hdec]
    · simp [applyInUpdate0, webhookInRow, mkInRow]
    · simp [webhook0OutRow, mkOutRow0, hdec]
    · simp [webhook0OutRow, mkOutRow0, hdec]
    · rw [hfst, webhook0Db_followups cfg db body now cls llmReply]
      simp [hdec]
    · rw [hh]; rfl

/-- Witness for C3: a non-complaint `CHECKIN` message received at 04:00
KST with `CHECKIN` configured as an action intent is deferred with the
configured night template and a `NIGHT_ACTION` follow-up entry. -/
theorem webhook0_night_defer_witness :
    isNightTime ⟨4⟩ = true ∧
    (∃ inR outR : MessageRow,
      (handleWebhook0 ⟨["CHECKIN"], "NIGHT", "SORRY"⟩ ⟨[], [], 1⟩
        ⟨some "01012345678", none, none, some "hi", none, none⟩ ⟨4⟩
        ⟨"CHECKIN", 1, false⟩ "GEN").1.messages = [] ++ [inR, outR] ∧
      inR.need_followup = some true ∧
      outR.text = "NIGHT" ∧ outR.need_followup = some true ∧
      (handleWebhook0 ⟨["CHECKIN"], "NIGHT", "SORRY"⟩ ⟨[], [], 1⟩
        ⟨some "01012345678", none, none, some "hi", none, none⟩ ⟨4⟩
        ⟨"CHECKIN", 1, false⟩ "GEN").1.followups
        = [] ++ [⟨1, "PENDING", some "NIGHT_ACTION"⟩] ∧
      (handleWebhook0 ⟨["CHECKIN"], "NIGHT", "SORRY"⟩ ⟨[], [], 1⟩
        ⟨some "01012345678", none, none, some "hi", none, none⟩ ⟨4⟩
        ⟨"CHECKIN", 1, false⟩ "GEN").2.status = 200) :=
  ⟨((webhook0_night_defer ⟨["CHECKIN"], "NIGHT", "SORRY"⟩ ⟨[], [], 1⟩
      ⟨some "01012345678", none, none, some "hi", none, none⟩ ⟨4⟩
      ⟨"CHECKIN", 1, false⟩ "GEN"
      ⟨fun m hm => by simp at hm, fun fq hf => by simp at hf⟩
      (by decide) (by decide) rfl).1 ⟨4⟩).mpr (by decide),
   (webhook0_night_defer ⟨["CHECKIN"], "NIGHT", "SORRY"⟩ ⟨[], [], 1⟩
      ⟨some "01012345678", none, none, some "hi", none, none⟩ ⟨4⟩
      ⟨"CHECKIN", 1, false⟩ "GEN"
      ⟨fun m hm => by simp at hm, fun fq hf => by simp at hf⟩
      (by decide) (by decide) rfl).2.1 ⟨by decide, by decide⟩⟩

end SmsBot
